import Mathlib

/-!
Shallow embedding of the xds-common HTTP client (`golib/httpclient.go`) and
proofs about its session negotiation and request pipeline.

Modelling conventions:
* Go strings are Lean `String`s; all string operations are implemented over
  `String.data` (`List Char`) so that concrete computations reduce in the
  kernel.  The strings involved are ASCII, so Go's byte indexing agrees with
  character indexing.
* The network is a trace `List (Option Response)`: each call to
  `httpClient.Do` consumes the head of the trace (`none` models a transport
  error, an exhausted trace likewise yields a transport error).
* Go panics (out-of-range slice `s[:5]`) are modelled by `GoResult.panic`.
* An HTTP response body is a one-shot stream: `ResponseToBArray` reads the
  body and closes it, so a second read returns the empty string.  This is
  tracked by the `consumed` flag on `Response`.
* The model instruments the code with a counter `boots` of the bootstrap
  attempts (`getCidAndCsrf` invocations that get past the API-key guard).
-/

namespace XdsHttp

deriving instance DecidableEq for Except

/-- Outcome of running a piece of Go code that can panic (e.g. an
out-of-range string slice). -/
inductive GoResult (α : Type) : Type where
  | panic : GoResult α
  | ok : α → GoResult α
deriving DecidableEq

/-- Typed rendering of the `error` values produced by `httpclient.go`. -/
inductive HErr : Type where
  /-- Error case: `httpClient.Do` returned an error (no response received). -/
  | transport : HErr
  /-- Error case: `http.NewRequest` rejected the URL. -/
  | badURL : String → HErr
  /-- Message `"Invalid endpoint or API call"` (status 404). -/
  | invalidEndpoint : HErr
  /-- Message `"Invalid username or password"` (status 401). -/
  | invalidCredentials : HErr
  /-- Message `"Invalid CSRF token"` (status 403, no API key). -/
  | invalidCSRF : HErr
  /-- Message `"Invalid API key"` (status 403, API key configured). -/
  | invalidAPIKey : HErr
  /-- Result of `fmt.Errorf` on the decoded `error` field or the raw body text. -/
  | remoteMsg : String → HErr
  /-- Message `"Unknown HTTP status returned: " + response.Status`. -/
  | unknownStatus : String → HErr
  /-- Message `"Failed to get device ID"`. -/
  | failedDeviceID : HErr
  /-- Message `"Failed to get CSRF token"`. -/
  | failedCSRFToken : HErr
  /-- Result of `errors.New(res.Status)` in `_HTTPRequest` for a non-200 response. -/
  | httpStatus : String → HErr
deriving DecidableEq

/-- Embeds `HTTPClientConfig` (httpclient.go lines 34-43), restricted to the fields
the request pipeline reads.  `urlPfx` embeds the source field `URLPrefix`;
the log fields are omitted (logging has no effect on any observable claim). -/
structure HTTPClientConfig : Type where
  urlPfx : String
  headerAPIKeyName : String
  apikey : String
  headerClientKeyName : String
  csrfDisable : Bool
deriving DecidableEq

/-- Embeds `HTTPClient` (httpclient.go lines 17-31), restricted to the fields the
request pipeline reads; the embedded `http.Client` is replaced by the trace
threaded through each function, and the logger fields are omitted. -/
structure HTTPClient : Type where
  initDone : Bool
  endpoint : String
  apikey : String
  username : String
  password : String
  id : String
  csrf : String
  conf : HTTPClientConfig
deriving DecidableEq

/-- An `http.Response` as observed by this client: status code, status text,
headers, cookies, body.  `consumed` tracks whether the one-shot body stream
has already been read (and closed). -/
structure Response : Type where
  statusCode : Nat
  status : String
  headers : List (String × String)
  cookies : List (String × String)
  body : String
  consumed : Bool
deriving DecidableEq

/-- An `http.Request` under construction: method, URL, optional body and the
headers set on it. -/
structure Request : Type where
  method : String
  url : String
  reqBody : Option String
  headers : List (String × String)
deriving DecidableEq

/-- Go's `response.Header.Get name`: the value of the first header with the given
name, or `""` when absent. -/
def headerGet (hs : List (String × String)) (name : String) : String :=
  match hs.find? (fun p => p.1 = name) with
  | some p => p.2
  | none => ""

/-- Go's `request.Header.Set name value`: replace any existing header of that
name. -/
def setHeader (hs : List (String × String)) (name value : String) :
    List (String × String) :=
  (name, value) :: hs.filter (fun p => p.1 ≠ name)

/-- Go string slice `s[:5]`: the first five bytes, panicking when the string
is shorter than five bytes (`slice bounds out of range`). -/
def goSlice5 (s : String) : GoResult String :=
  if 5 ≤ s.data.length then GoResult.ok (String.mk (s.data.take 5))
  else GoResult.panic

/-- First five characters of a string known to be long enough (total
companion of `goSlice5` used in specifications). -/
def take5 (s : String) : String :=
  String.mk (s.data.take 5)

/-- ASCII whitespace recognised by `strings.TrimSpace` on the bodies that
occur here. -/
def isSpaceChar (ch : Char) : Bool :=
  ch = ' ' ∨ ch = '\t' ∨ ch = '\n' ∨ ch = '\r'

/-- Go's `strings.TrimSpace`. -/
def trimSpace (s : String) : String :=
  String.mk (((s.data.dropWhile isSpaceChar).reverse.dropWhile isSpaceChar).reverse)

/-- Go's `strings.TrimLeft s "/"`: drop every leading slash. -/
def trimLeftSlashes (s : String) : String :=
  String.mk (s.data.dropWhile (fun ch => ch = '/'))

/-- Go's `strings.HasSuffix s "/"`. -/
def endsWithSlash (s : String) : Bool :=
  s.data.getLast? = some '/'

/-- Embeds `formatURL` (httpclient.go lines 361-371): join the client's endpoint,
the configured URL prefix and the call's relative path with single slashes.
The source is a method reading `c.endpoint` and `c.conf.URLPrefix`; they are
the first two parameters here. -/
def formatURL (endpoint urlPfx endURL : String) : String :=
  let url := endpoint
  let url := if endsWithSlash url then url else url ++ "/"
  let url := url ++ trimLeftSlashes urlPfx
  let url := if endsWithSlash url then url else url ++ "/"
  url ++ trimLeftSlashes endURL

/-- Character code 34, the double quote (written by code to stay clear of
string-literal delimiters). -/
def quoteChar : Char := Char.ofNat 34

/-- Character code 123, the opening curly brace. -/
def lbraceChar : Char := Char.ofNat 123

/-- Character code 125, the closing curly brace. -/
def rbraceChar : Char := Char.ofNat 125

/-- Drop leading JSON whitespace. -/
def skipSpaces (cs : List Char) : List Char :=
  cs.dropWhile isSpaceChar

/-- Consume the characters of a JSON string literal up to its closing quote,
returning the content and the remainder.  Escape sequences are not handled:
the bodies exercised by the claims contain none. -/
def parseJSONString : List Char → Option (List Char × List Char)
  | [] => none
  | ch :: rest =>
    if ch = quoteChar then some ([], rest)
    else
      match parseJSONString rest with
      | some (acc, rem) => some (ch :: acc, rem)
      | none => none

/-- Modelled from the Go standard library calls at httpclient.go lines
345-349: `json.Unmarshal` of the body into a `map[string]interface` followed
by the lookup of the `error` field, restricted to the object shape
`\x7b "error": "<plain string>" \x7d` exercised here.  Returns the `error`
field's string value when the body parses as such an object, `none`
otherwise (in particular on every non-JSON body). -/
def parseErrorField (s : String) : Option String :=
  match skipSpaces s.data with
  | [] => none
  | ch :: rest =>
    if ch = lbraceChar then
      match skipSpaces rest with
      | c2 :: r2 =>
        if c2 = quoteChar then
          match parseJSONString r2 with
          | some (key, r3) =>
            if key = [ 'e', 'r', 'r', 'o', 'r'] then
              match skipSpaces r3 with
              | ':' :: r4 =>
                match skipSpaces r4 with
                | c5 :: r5 =>
                  if c5 = quoteChar then
                    match parseJSONString r5 with
                    | some (val, r6) =>
                      match skipSpaces r6 with
                      | c7 :: r7 =>
                        if c7 = rbraceChar ∧ skipSpaces r7 = [] then
                          some (String.mk val)
                        else none
                      | [] => none
                    | none => none
                  else none
                | [] => none
              | _ => none
            else none
          | none => none
        else none
      | [] => none
    else none

/-- Embeds `ResponseToBArray` (httpclient.go lines 219-226): read the whole body and
close it.  The body is a one-shot stream: once consumed (and closed), a
second read yields the empty byte array (`ioutil.ReadAll` on a closed
response body returns an error, logged and swallowed, with no data). -/
def ResponseToBArray (r : Response) : String × Response :=
  if r.consumed then ("", r)
  else (r.body, { r with consumed := true })

/-- ASCII control characters, which Go's URL parser rejects. -/
def isCtrlChar (ch : Char) : Bool :=
  ch.toNat < 32 ∨ ch.toNat = 127

/-- Modelled from the Go standard library `http.NewRequest`: fails exactly
when the URL contains an ASCII control character (`net/url: invalid control
character in URL`); other failure modes of the stdlib (invalid method
tokens) are not exercised by this client and are elided. -/
def newRequest (method url : String) (rbody : Option String) :
    Except HErr Request :=
  if url.data.any isCtrlChar then Except.error (HErr.badURL url)
  else Except.ok { method := method, url := url, reqBody := rbody, headers := [] }

/-- Credential attachment (httpclient.go lines 296-307): set the API-key
header, the client-ID header, basic auth, and the CSRF header named
`"X-CSRF-Token-" + c.id[:5]`.  The slice `c.id[:5]` panics when `c.id` is
shorter than five bytes.  Base64 encoding of the basic-auth credentials is
elided (the header value is never observed by the model). -/
def attachCreds (c : HTTPClient) (request : Request) : GoResult Request :=
  let request :=
    if c.conf.headerAPIKeyName ≠ "" ∧ c.apikey ≠ "" then
      { request with headers := setHeader request.headers c.conf.headerAPIKeyName c.apikey }
    else request
  let request :=
    if c.conf.headerClientKeyName ≠ "" ∧ c.id ≠ "" then
      { request with headers := setHeader request.headers c.conf.headerClientKeyName c.id }
    else request
  let request :=
    if c.username ≠ "" ∨ c.password ≠ "" then
      { request with headers := setHeader request.headers "Authorization" (c.username ++ ":" ++ c.password) }
    else request
  if c.csrf ≠ "" then
    match goSlice5 c.id with
    | GoResult.panic => GoResult.panic
    | GoResult.ok p =>
      GoResult.ok { request with headers := setHeader request.headers ("X-CSRF-Token-" ++ p) c.csrf }
  else GoResult.ok request

/-- The cookie scan of httpclient.go lines 324-331: find the first cookie
named `"CSRF-Token-" + c.id[:5]` and store its value in `c.csrf`.  The
conjunction `c.id != "" && item.Name == ...` short-circuits, so the slice is
only evaluated (and can only panic) when the ID is non-empty. -/
def scanCookies (c : HTTPClient) : List (String × String) → GoResult HTTPClient
  | [] => GoResult.ok c
  | (name, value) :: rest =>
    if c.id = "" then scanCookies c rest
    else
      match goSlice5 c.id with
      | GoResult.panic => GoResult.panic
      | GoResult.ok p =>
        if name = "CSRF-Token-" ++ p then GoResult.ok { c with csrf := value }
        else scanCookies c rest

/-- Credential extraction (httpclient.go lines 317-331): overwrite the
stored client ID when the configured client-ID header is present and
differs, then scan the cookies for the CSRF token. -/
def extractCreds (c : HTTPClient) (response : Response) : GoResult HTTPClient :=
  let cid := headerGet response.headers c.conf.headerClientKeyName
  let c := if cid ≠ "" ∧ c.id ≠ cid then { c with id := cid } else c
  scanCookies c response.cookies

/-- First cookie with the given name (specification companion of
`scanCookies`). -/
def findCookie (cookies : List (String × String)) (name : String) :
    Option String :=
  (cookies.find? (fun p => p.1 = name)).map (fun p => p.2)

/-- The bootstrap request built by `getCidAndCsrf` (httpclient.go line 379):
an unauthenticated GET to the bare endpoint. -/
def bootstrapRequest (endpoint : String) : Except HErr Request :=
  newRequest "GET" endpoint none

/-- Embeds `handleRequest` (httpclient.go lines 295-358): attach credentials,
dispatch over the transport (consume the head of the trace), run credential
extraction on the response, then classify the status code.

The 403 branch with no API key calls `c.getCidAndCsrf()` and discards its
result.  Since `c.apikey = ""` holds in that branch, `getCidAndCsrf`'s
API-key guard is dead there and the call amounts to: build the bootstrap
request, run `handleRequest` on it, discard the outcome (the invariant
checks at the end of `getCidAndCsrf` modify no state).  The branch is
embedded in that unfolded form so that the recursion is structural on the
trace; the lemma `refresh_eq_getCidAndCsrf` below certifies that it agrees
with `getCidAndCsrf`.  `boots` counts the bootstrap attempts. -/
def handleRequest (c : HTTPClient) (boots : Nat) :
    List (Option Response) → Request →
    GoResult (Except HErr Response × HTTPClient × Nat × List (Option Response))
  | trace, request =>
    match attachCreds c request with
    | GoResult.panic => GoResult.panic
    | GoResult.ok _ =>
      match trace with
      | [] => GoResult.ok (Except.error HErr.transport, c, boots, [])
      | none :: rest => GoResult.ok (Except.error HErr.transport, c, boots, rest)
      | some response :: rest =>
        match extractCreds c response with
        | GoResult.panic => GoResult.panic
        | GoResult.ok c1 =>
          if response.statusCode = 404 then
            GoResult.ok (Except.error HErr.invalidEndpoint, c1, boots, rest)
          else if response.statusCode = 401 then
            GoResult.ok (Except.error HErr.invalidCredentials, c1, boots, rest)
          else if response.statusCode = 403 then
            if c1.apikey = "" then
              match bootstrapRequest c1.endpoint with
              | Except.error _ =>
                GoResult.ok (Except.error HErr.invalidCSRF, c1, boots + 1, rest)
              | Except.ok breq =>
                match handleRequest c1 (boots + 1) rest breq with
                | GoResult.panic => GoResult.panic
                | GoResult.ok (_, c2, b2, t2) =>
                  GoResult.ok (Except.error HErr.invalidCSRF, c2, b2, t2)
            else
              GoResult.ok (Except.error HErr.invalidAPIKey, c1, boots, rest)
          else if response.statusCode ≠ 200 then
            let p1 := ResponseToBArray response
            match parseErrorField p1.1 with
            | some msg =>
              GoResult.ok (Except.error (HErr.remoteMsg msg), c1, boots, rest)
            | none =>
              let p2 := ResponseToBArray p1.2
              let bodyTxt := trimSpace p2.1
              if bodyTxt ≠ "" then
                GoResult.ok (Except.error (HErr.remoteMsg bodyTxt), c1, boots, rest)
              else
                GoResult.ok (Except.error (HErr.unknownStatus response.status), c1, boots, rest)
          else
            GoResult.ok (Except.ok response, c1, boots, rest)

/-- Embeds `getCidAndCsrf` (httpclient.go lines 374-393): in API-key mode return
success at once with no network call; otherwise count one bootstrap attempt,
issue the unauthenticated GET through `handleRequest`, propagate its error,
and finally check that a client ID was discovered and (unless CSRF is
disabled) a CSRF token was discovered. -/
def getCidAndCsrf (c : HTTPClient) (boots : Nat) (trace : List (Option Response)) :
    GoResult (Except HErr Unit × HTTPClient × Nat × List (Option Response)) :=
  if c.apikey ≠ "" then GoResult.ok (Except.ok (), c, boots, trace)
  else
    match bootstrapRequest c.endpoint with
    | Except.error e => GoResult.ok (Except.error e, c, boots + 1, trace)
    | Except.ok breq =>
      match handleRequest c (boots + 1) trace breq with
      | GoResult.panic => GoResult.panic
      | GoResult.ok (Except.error e, c2, b2, t2) =>
        GoResult.ok (Except.error e, c2, b2, t2)
      | GoResult.ok (Except.ok _, c2, b2, t2) =>
        if c2.id = "" then
          GoResult.ok (Except.error HErr.failedDeviceID, c2, b2, t2)
        else if ¬ c2.conf.csrfDisable ∧ c2.csrf = "" then
          GoResult.ok (Except.error HErr.failedCSRFToken, c2, b2, t2)
        else GoResult.ok (Except.ok (), c2, b2, t2)

/-- The 403-refresh branch embedded inside `handleRequest` agrees with
`getCidAndCsrf`: in cookie mode, running `getCidAndCsrf` and replacing its
discarded outcome by the `Invalid CSRF token` error is exactly what the
embedded branch computes. -/
theorem refresh_eq_getCidAndCsrf (c : HTTPClient) (boots : Nat)
    (trace : List (Option Response)) (h : c.apikey = "") :
    ((match getCidAndCsrf c boots trace with
      | GoResult.panic => GoResult.panic
      | GoResult.ok (_, c2, b2, t2) =>
        GoResult.ok (Except.error HErr.invalidCSRF, c2, b2, t2)) :
      GoResult (Except HErr Response × HTTPClient × Nat × List (Option Response))) =
    (match bootstrapRequest c.endpoint with
     | Except.error _ =>
       GoResult.ok (Except.error HErr.invalidCSRF, c, boots + 1, trace)
     | Except.ok breq =>
       match handleRequest c (boots + 1) trace breq with
       | GoResult.panic => GoResult.panic
       | GoResult.ok (_, c2, b2, t2) =>
         GoResult.ok (Except.error HErr.invalidCSRF, c2, b2, t2)) := by
  rw [getCidAndCsrf, if_neg (fun hc => hc h)]
  cases hb : bootstrapRequest c.endpoint with
  | error e => rfl
  | ok breq =>
    cases hh : handleRequest c (boots + 1) trace breq with
    | panic => simp [hh]
    | ok res =>
      obtain ⟨r, c2, b2, t2⟩ := res
      cases r with
      | error e => simp [hh]
      | ok v =>
        simp only [hh]
        by_cases h1 : c2.id = ""
        · simp [h1]
        · by_cases h2 : c2.conf.csrfDisable = false ∧ c2.csrf = ""
          · simp [h1, h2]
          · simp [h1, h2]

/-- The client record built by `HTTPNewClient` (httpclient.go lines 74-88)
before session bootstrap. -/
def mkClient (baseURL : String) (cfg : HTTPClientConfig) : HTTPClient :=
  { initDone := false
    endpoint := baseURL
    apikey := cfg.apikey
    username := ""
    password := ""
    id := ""
    csrf := ""
    conf := cfg }

/-- Embeds `HTTPNewClient` (httpclient.go lines 59-98): build the client record and
immediately attempt the session bootstrap; on failure return the client
together with the error (leaving `initDone` false), on success mark the
client initialized. -/
def HTTPNewClient (baseURL : String) (cfg : HTTPClientConfig)
    (trace : List (Option Response)) :
    GoResult ((HTTPClient × Option HErr) × Nat × List (Option Response)) :=
  match getCidAndCsrf (mkClient baseURL cfg) 0 trace with
  | GoResult.panic => GoResult.panic
  | GoResult.ok (Except.error e, c2, b2, t2) =>
    GoResult.ok ((c2, some e), b2, t2)
  | GoResult.ok (Except.ok _, c2, b2, t2) =>
    GoResult.ok (({ c2 with initDone := true }, none), b2, t2)

/-- Lines 269-292 of `_HTTPRequest`: build the request on the composed URL,
dispatch it through `handleRequest`, require status 200, and on success copy
the body into the caller's buffer when one was supplied.  `data` is the
caller's buffer: `none` models a nil pointer, `some buf` a buffer currently
holding `buf`; the returned `Option String` is the buffer afterwards. -/
def requestCore (c : HTTPClient) (boots : Nat) (trace : List (Option Response))
    (method url : String) (rbody : Option String) (data : Option String) :
    GoResult (Except HErr Response × Option String × HTTPClient × Nat × List (Option Response)) :=
  match newRequest method (formatURL c.endpoint c.conf.urlPfx url) rbody with
  | Except.error e => GoResult.ok (Except.error e, data, c, boots, trace)
  | Except.ok request =>
    match handleRequest c boots trace request with
    | GoResult.panic => GoResult.panic
    | GoResult.ok (Except.error e, c2, b2, t2) =>
      GoResult.ok (Except.error e, data, c2, b2, t2)
    | GoResult.ok (Except.ok res, c2, b2, t2) =>
      if res.statusCode ≠ 200 then
        GoResult.ok (Except.error (HErr.httpStatus res.status), data, c2, b2, t2)
      else
        match data with
        | none => GoResult.ok (Except.ok res, none, c2, b2, t2)
        | some _ =>
          GoResult.ok (Except.ok res, some (ResponseToBArray res).1, c2, b2, t2)

/-- Lines 263-267 of `_HTTPRequest`: when the client is not yet initialized,
silently attempt one session bootstrap; mark the client initialized only
when the attempt succeeds, and swallow its error in every case. -/
def lazyInitStep (c : HTTPClient) (boots : Nat) (trace : List (Option Response)) :
    GoResult (HTTPClient × Nat × List (Option Response)) :=
  if c.initDone then GoResult.ok (c, boots, trace)
  else
    match getCidAndCsrf c boots trace with
    | GoResult.panic => GoResult.panic
    | GoResult.ok (Except.ok _, c2, b2, t2) =>
      GoResult.ok ({ c2 with initDone := true }, b2, t2)
    | GoResult.ok (Except.error _, c2, b2, t2) =>
      GoResult.ok (c2, b2, t2)

/-- Embeds `_HTTPRequest` (httpclient.go lines 262-293): best-effort lazy session
bootstrap followed by the request pipeline. -/
def lowHTTPRequest (c : HTTPClient) (boots : Nat) (trace : List (Option Response))
    (method url : String) (rbody : Option String) (data : Option String) :
    GoResult (Except HErr Response × Option String × HTTPClient × Nat × List (Option Response)) :=
  match lazyInitStep c boots trace with
  | GoResult.panic => GoResult.panic
  | GoResult.ok (c1, b1, t1) => requestCore c1 b1 t1 method url rbody data

/-- Embeds `HTTPGetWithRes` (httpclient.go lines 181-183). -/
def HTTPGetWithRes (c : HTTPClient) (boots : Nat) (trace : List (Option Response))
    (url : String) (data : Option String) :
    GoResult (Except HErr Response × Option String × HTTPClient × Nat × List (Option Response)) :=
  lowHTTPRequest c boots trace "GET" url none data

/-- C8: URL joining is invariant under slash variation over the listed
shapes: for every endpoint in `{"http://h", "http://h/"}`, prefix in
`{"rest", "/rest/", "rest/"}` and path in `{"foo", "/foo"}`, the composed
URL equals `"http://h/rest/foo"` (so exactly one slash separates each pair
of segments). -/
theorem formatURL_slash_invariance :
    formatURL "http://h" "rest" "foo" = "http://h/rest/foo" ∧
    formatURL "http://h" "rest" "/foo" = "http://h/rest/foo" ∧
    formatURL "http://h" "/rest/" "foo" = "http://h/rest/foo" ∧
    formatURL "http://h" "/rest/" "/foo" = "http://h/rest/foo" ∧
    formatURL "http://h" "rest/" "foo" = "http://h/rest/foo" ∧
    formatURL "http://h" "rest/" "/foo" = "http://h/rest/foo" ∧
    formatURL "http://h/" "rest" "foo" = "http://h/rest/foo" ∧
    formatURL "http://h/" "rest" "/foo" = "http://h/rest/foo" ∧
    formatURL "http://h/" "/rest/" "foo" = "http://h/rest/foo" ∧
    formatURL "http://h/" "/rest/" "/foo" = "http://h/rest/foo" ∧
    formatURL "http://h/" "rest/" "foo" = "http://h/rest/foo" ∧
    formatURL "http://h/" "rest/" "/foo" = "http://h/rest/foo" := by
  decide

/-! Concrete fixtures used by the counterexamples and evaluations below. -/

/-- A cookie/CSRF-mode configuration (no API key). -/
def cfgCookie : HTTPClientConfig :=
  { urlPfx := "", headerAPIKeyName := "X-API-Key", apikey := "",
    headerClientKeyName := "X-Client", csrfDisable := false }

/-- An API-key-mode configuration. -/
def cfgApi : HTTPClientConfig :=
  { urlPfx := "", headerAPIKeyName := "X-API-Key", apikey := "secret",
    headerClientKeyName := "X-Client", csrfDisable := false }

/-- An already-initialized cookie-mode client with no session state yet. -/
def clientCookie : HTTPClient :=
  { initDone := true, endpoint := "http://h", apikey := "", username := "",
    password := "", id := "", csrf := "", conf := cfgCookie }

/-- An already-initialized API-key-mode client. -/
def clientApi : HTTPClient :=
  { initDone := true, endpoint := "http://h", apikey := "secret",
    username := "", password := "", id := "", csrf := "", conf := cfgApi }

/-- A plain GET request used to drive the pipeline. -/
def reqGet : Request :=
  { method := "GET", url := "http://h/", reqBody := none, headers := [] }

/-- A bare 403 response. -/
def resp403 : Response :=
  { statusCode := 403, status := "403 Forbidden", headers := [], cookies := [],
    body := "", consumed := false }

/-- A 500 response whose body is the plain (non-JSON) text `disk full`. -/
def resp500text : Response :=
  { statusCode := 500, status := "500 Internal Server Error", headers := [],
    cookies := [], body := "disk full", consumed := false }

/-- A 500 response whose body is the JSON object with `error` field
`disk full`. -/
def resp500json : Response :=
  { statusCode := 500, status := "500 Internal Server Error", headers := [],
    cookies := [], body := "\x7b\"error\":\"disk full\"\x7d", consumed := false }

/-- A 200 response delivering a six-character client ID and the matching
CSRF cookie. -/
def resp200idLong : Response :=
  { statusCode := 200, status := "200 OK",
    headers := [("X-Client", "abcde1")],
    cookies := [("CSRF-Token-abcde", "tok")], body := "", consumed := false }

/-- A 200 response rotating the client ID to the three-character `abc`. -/
def resp200idShort : Response :=
  { statusCode := 200, status := "200 OK", headers := [("X-Client", "abc")],
    cookies := [], body := "", consumed := false }

/-- A 200 response with no headers and no cookies. -/
def resp200plain : Response :=
  { statusCode := 200, status := "200 OK", headers := [], cookies := [],
    body := "", consumed := false }

/-- A 200 response carrying one (unrelated) cookie and no headers. -/
def resp200cookieOnly : Response :=
  { statusCode := 200, status := "200 OK", headers := [],
    cookies := [("unrelated", "v")], body := "", consumed := false }

/-- A 200 response carrying the client-ID header `abc123`. -/
def resp200hdr : Response :=
  { statusCode := 200, status := "200 OK", headers := [("X-Client", "abc123")],
    cookies := [], body := "", consumed := false }

/-- A 500 response that nevertheless delivers a client ID and a matching
CSRF cookie. -/
def resp500creds : Response :=
  { statusCode := 500, status := "500 Internal Server Error",
    headers := [("X-Client", "abc123")],
    cookies := [("CSRF-Token-abc12", "tok")], body := "", consumed := false }

/-- State `clientCookie` after extracting ID `abcde1` and token `tok`. -/
def clientIdLong : HTTPClient :=
  { clientCookie with id := "abcde1", csrf := "tok" }

/-- State `clientIdLong` after the ID rotated to the short `abc` (token kept). -/
def clientIdShort : HTTPClient :=
  { clientCookie with id := "abc", csrf := "tok" }

/-- State `clientApi` after a response delivered the client-ID header `abc123`. -/
def clientApiWithId : HTTPClient :=
  { clientApi with id := "abc123" }

/-- State `clientCookie` after extracting ID `abc123` and token `tok`. -/
def clientWithCreds : HTTPClient :=
  { clientCookie with id := "abc123", csrf := "tok" }

/-! Characterization of the cookie scan and field-preservation lemmas. -/

/-- With an empty client ID the cookie scan is a no-op: the guard
`c.id != ""` short-circuits on every cookie, so nothing is evaluated and
nothing changes. -/
theorem scanCookies_empty_id (c : HTTPClient) (l : List (String × String))
    (h : c.id = "") : scanCookies c l = GoResult.ok c := by
  induction l with
  | nil => rfl
  | cons p rest ih =>
    obtain ⟨name, value⟩ := p
    rw [scanCookies, if_pos h]
    exact ih

/-- With a client ID of at least five characters the cookie scan stores the
value of the first cookie named `"CSRF-Token-" + take5 c.id` and leaves the
token unchanged when no such cookie exists. -/
theorem scanCookies_found (c : HTTPClient) (l : List (String × String))
    (h : 5 ≤ c.id.data.length) :
    scanCookies c l =
      GoResult.ok { c with csrf :=
        (match findCookie l ("CSRF-Token-" ++ take5 c.id) with
         | some v => v
         | none => c.csrf) } := by
  have hne : ¬ c.id = "" := by
    intro h0
    rw [h0] at h
    simp at h
  induction l with
  | nil => rfl
  | cons p rest ih =>
    obtain ⟨name, value⟩ := p
    by_cases hn : name = "CSRF-Token-" ++ take5 c.id
    · have h5 : 5 ≤ c.id.length := h
      simp [scanCookies, hne, goSlice5, h5, take5, findCookie, hn]
    · simp only [scanCookies, if_neg hne, goSlice5, if_pos h]
      rw [if_neg (by simpa [take5] using hn)]
      rw [ih]
      simp [findCookie, hn]

/-- C1: the claim says a 403 in cookie mode triggers exactly one bootstrap
and the refresh never recurses even when the bootstrap's own response is
again a 403.  The code disagrees: on the trace `[403, 403]` the original
request's 403 triggers a bootstrap, the bootstrap's own 403 recursively
triggers a second bootstrap (whose GET then hits the exhausted trace, i.e. a
transport error), so the bootstrap counter ends at 2 — while the original
request does still fail with the `Invalid CSRF token` error and is not
retried. -/
theorem refresh403_recurses_on_second_403 :
    handleRequest clientCookie 0 [some resp403, some resp403] reqGet =
      GoResult.ok (Except.error HErr.invalidCSRF, clientCookie, 2, []) := by
  decide

/-- C2: credential attachment and cookie extraction are not total: a session
whose client ID is a non-empty string shorter than five characters makes the
client panic (Go slice out of range on `c.id[:5]`), and the state is
reachable from remote responses alone.  The chain: a 200 response stores ID
`abcde1` and token `tok`; a later response rotates the ID to `abc`; the next
request then panics while attaching the CSRF header, and a response carrying
any cookie panics in the cookie scan. -/
theorem shortClientID_oob :
    handleRequest clientCookie 0 [some resp200idLong] reqGet =
      GoResult.ok (Except.ok resp200idLong, clientIdLong, 0, []) ∧
    handleRequest clientIdLong 0 [some resp200idShort] reqGet =
      GoResult.ok (Except.ok resp200idShort, clientIdShort, 0, []) ∧
    handleRequest clientIdShort 0 [some resp200plain] reqGet =
      GoResult.panic ∧
    extractCreds clientIdShort resp200cookieOnly = GoResult.panic :=
  ⟨by decide, by decide, by decide, by decide⟩

/-- C3 counterexample: with a non-empty API key, a single 200 response
carrying the configured client-ID header `abc123` leaves the session with
`id = "abc123"`, not the empty string the claim requires — credential
extraction runs regardless of auth mode. -/
theorem apikeyMode_id_populated_cex :
    handleRequest clientApi 0 [some resp200hdr] reqGet =
      GoResult.ok (Except.ok resp200hdr, clientApiWithId, 0, []) ∧
    clientApiWithId.id = "abc123" ∧ clientApiWithId.id ≠ "" ∧
    clientApiWithId.apikey = "secret" := by
  decide

/-- C4: the claim says a 500 whose body is the non-empty non-JSON text
`disk full` yields that text as the error message.  The code disagrees: the
JSON-decoding attempt consumes and closes the body, so the second read used
for the raw-body fallback returns the empty string and the result is the
unknown-status error carrying the literal status text.  The JSON leg itself
works: a 500 with body `\x7b"error":"disk full"\x7d` does yield the message
`disk full`. -/
theorem non200_fallback_body_lost :
    handleRequest clientCookie 0 [some resp500text] reqGet =
      GoResult.ok
        (Except.error (HErr.unknownStatus "500 Internal Server Error"),
         clientCookie, 0, []) ∧
    handleRequest clientCookie 0 [some resp500json] reqGet =
      GoResult.ok (Except.error (HErr.remoteMsg "disk full"),
        clientCookie, 0, []) :=
  ⟨by decide, by decide⟩

/-- C5 counterexample: constructing a cookie-mode client on an empty trace
performs a bootstrap attempt at construction time (it consumes a network
call, counts one bootstrap and surfaces its transport error), refuting the
claim that construction issues no bootstrap. -/
theorem construction_bootstraps_cex :
    HTTPNewClient "http://h" cfgCookie [] =
      GoResult.ok ((mkClient "http://h" cfgCookie, some HErr.transport), 1, []) ∧
    (1 : Nat) ≠ 0 := by
  decide

/-- C7 counterexample: a bootstrap whose GET is answered by a 500 response
that nevertheless carries the client-ID header `abc123` and the matching
CSRF cookie extracts both credentials and still fails (with the
unknown-status error), refuting the claim that bootstrap succeeds exactly
when the ID is present and a token is present. -/
theorem bootstrap_fails_despite_creds_cex :
    getCidAndCsrf clientCookie 0 [some resp500creds] =
      GoResult.ok
        (Except.error (HErr.unknownStatus "500 Internal Server Error"),
         clientWithCreds, 1, []) ∧
    clientWithCreds.id = "abc123" ∧ clientWithCreds.id ≠ "" ∧
    clientWithCreds.csrf = "tok" ∧ clientWithCreds.csrf ≠ "" ∧
    clientWithCreds.conf.csrfDisable = false := by
  decide

/-- A bare 401 response. -/
def resp401 : Response :=
  { statusCode := 401, status := "401 Unauthorized", headers := [],
    cookies := [], body := "", consumed := false }

/-- C6: the status classifier is deterministic: 401 always yields the
invalid-credentials error, 404 the invalid-endpoint error; 403 yields the
invalid-API-key error exactly when an API key is configured and otherwise
the invalid-CSRF error (after the fire-and-forget refresh); 200 passes the
response through as success.  The hypotheses state that credential
attachment and extraction complete without a panic. -/
theorem statusClassification (c : HTTPClient) (boots : Nat) (r : Response)
    (rest : List (Option Response)) (request req2 : Request) (c1 : HTTPClient)
    (hat : attachCreds c request = GoResult.ok req2)
    (hex : extractCreds c r = GoResult.ok c1) :
    (r.statusCode = 401 →
      handleRequest c boots (some r :: rest) request =
        GoResult.ok (Except.error HErr.invalidCredentials, c1, boots, rest)) ∧
    (r.statusCode = 404 →
      handleRequest c boots (some r :: rest) request =
        GoResult.ok (Except.error HErr.invalidEndpoint, c1, boots, rest)) ∧
    (r.statusCode = 403 → c1.apikey ≠ "" →
      handleRequest c boots (some r :: rest) request =
        GoResult.ok (Except.error HErr.invalidAPIKey, c1, boots, rest)) ∧
    (r.statusCode = 403 → c1.apikey = "" →
      ∀ (u : Except HErr Unit) (c2 : HTTPClient) (b2 : Nat)
        (t2 : List (Option Response)),
        getCidAndCsrf c1 boots rest = GoResult.ok (u, c2, b2, t2) →
        handleRequest c boots (some r :: rest) request =
          GoResult.ok (Except.error HErr.invalidCSRF, c2, b2, t2)) ∧
    (r.statusCode = 200 →
      handleRequest c boots (some r :: rest) request =
        GoResult.ok (Except.ok r, c1, boots, rest)) := by
  refine ⟨?_, ?_, ?_, ?_, ?_⟩
  · intro h
    rw [handleRequest, hat, hex]
    simp [h]
  · intro h
    rw [handleRequest, hat, hex]
    simp [h]
  · intro h hkey
    rw [handleRequest, hat, hex]
    simp [h, hkey]
  · intro h hkey u c2 b2 t2 hg
    rw [getCidAndCsrf, if_neg (fun hc => hc hkey)] at hg
    rw [handleRequest, hat, hex]
    simp only [h]
    cases hb : bootstrapRequest c1.endpoint with
    | error e =>
      rw [hb] at hg
      simp at hg
      obtain ⟨g1, g2, g3, g4⟩ := hg
      subst g2
      subst g3
      subst g4
      simp [hb, hkey]
    | ok breq =>
      rw [hb] at hg
      cases hh : handleRequest c1 (boots + 1) rest breq with
      | panic =>
        simp [hh] at hg
      | ok quad =>
        obtain ⟨res3, c3, b3, t3⟩ := quad
        cases res3 with
        | error e =>
          simp [hh] at hg
          obtain ⟨g1, g2, g3, g4⟩ := hg
          subst g2
          subst g3
          subst g4
          simp [hb, hh, hkey]
        | ok v =>
          simp [hh] at hg
          split at hg <;> (try split at hg) <;> simp_all [hb, hkey]
  · intro h
    rw [handleRequest, hat, hex]
    simp [h]

/-- Witness for `statusClassification`: a 401 response on a fresh
cookie-mode client yields the invalid-credentials error. -/
theorem statusClassification_w :
    handleRequest clientCookie 0 [some resp401] reqGet =
      GoResult.ok (Except.error HErr.invalidCredentials, clientCookie, 0, []) :=
  (statusClassification clientCookie 0 resp401 [] reqGet reqGet clientCookie
    (by decide) (by decide)).1 rfl

/-- C3 (amended): with a non-empty API key, construction and the bootstrap
step leave `clientID`/`csrfToken` empty and perform no network call at all;
the mutual exclusion does not extend to responses, however: credential
extraction runs on every response regardless of auth mode, so a response
carrying the configured client-ID header overwrites the stored ID even in
API-key mode. -/
theorem apikeyMode_session_empty
    (baseURL : String) (cfg : HTTPClientConfig) (trace : List (Option Response))
    (c : HTTPClient) (boots : Nat) (r : Response)
    (hkey : cfg.apikey ≠ "") (hckey : c.apikey ≠ "") :
    (mkClient baseURL cfg).id = "" ∧ (mkClient baseURL cfg).csrf = "" ∧
    HTTPNewClient baseURL cfg trace =
      GoResult.ok (({ mkClient baseURL cfg with initDone := true }, none), 0, trace) ∧
    getCidAndCsrf c boots trace = GoResult.ok (Except.ok (), c, boots, trace) ∧
    (∀ cid, cid = headerGet r.headers c.conf.headerClientKeyName → cid ≠ "" →
      c.id ≠ cid → r.cookies = [] →
      extractCreds c r = GoResult.ok { c with id := cid }) := by
  refine ⟨rfl, rfl, ?_, ?_, ?_⟩
  · rw [HTTPNewClient, getCidAndCsrf, if_pos (by simpa [mkClient] using hkey)]
  · rw [getCidAndCsrf, if_pos hckey]
  · intro cid hcid h1 h2 h3
    simp only [extractCreds]
    rw [h3, ← hcid, if_pos ⟨h1, h2⟩]
    rfl

/-- Witness for `apikeyMode_session_empty`, instantiated with the API-key
configuration and client and a header-free response. -/
theorem apikeyMode_session_empty_w :
    HTTPNewClient "http://h" cfgApi [] =
      GoResult.ok (({ mkClient "http://h" cfgApi with initDone := true }, none),
        0, []) ∧
    getCidAndCsrf clientApi 0 [] = GoResult.ok (Except.ok (), clientApi, 0, []) :=
  ⟨(apikeyMode_session_empty "http://h" cfgApi [] clientApi 0 resp200plain
      (by decide) (by decide)).2.2.1,
   (apikeyMode_session_empty "http://h" cfgApi [] clientApi 0 resp200plain
      (by decide) (by decide)).2.2.2.1⟩

/-- C5 (amended): construction is not lazy — `HTTPNewClient` itself performs
the bootstrap attempt, and when that attempt fails the constructor returns
the bootstrap's error alongside the client without marking it initialized.
The lazy part of the claim does hold: whenever a call begins with the
`initDone` flag false, the pipeline silently attempts one bootstrap, and a
failing bootstrap does not abort the call — the pipeline continues on the
post-bootstrap state. -/
theorem eager_construction_and_lazy_retry
    (baseURL : String) (cfg : HTTPClientConfig) (trace : List (Option Response))
    (e : HErr) (c2 : HTTPClient) (b2 : Nat) (t2 : List (Option Response))
    (hb : getCidAndCsrf (mkClient baseURL cfg) 0 trace =
      GoResult.ok (Except.error e, c2, b2, t2)) :
    HTTPNewClient baseURL cfg trace = GoResult.ok ((c2, some e), b2, t2) ∧
    (∀ (c : HTTPClient) (boots : Nat) (tr : List (Option Response))
      (method url : String) (rbody data : Option String)
      (e2 : HErr) (c3 : HTTPClient) (b3 : Nat) (t3 : List (Option Response)),
      c.initDone = false →
      getCidAndCsrf c boots tr = GoResult.ok (Except.error e2, c3, b3, t3) →
      lowHTTPRequest c boots tr method url rbody data =
        requestCore c3 b3 t3 method url rbody data) := by
  constructor
  · rw [HTTPNewClient]
    simp [hb]
  · intro c boots tr method url rbody data e2 c3 b3 t3 hinit hget
    rw [lowHTTPRequest, lazyInitStep]
    simp [hinit, hget]

/-- Witness for `eager_construction_and_lazy_retry`: constructing a
cookie-mode client on an empty trace surfaces the bootstrap's transport
error. -/
theorem eager_construction_and_lazy_retry_w :
    HTTPNewClient "http://h" cfgCookie [] =
      GoResult.ok ((mkClient "http://h" cfgCookie, some HErr.transport), 1, []) :=
  (eager_construction_and_lazy_retry "http://h" cfgCookie [] HErr.transport
    (mkClient "http://h" cfgCookie) 1 [] (by decide)).1

/-- C7 (amended): with an API key configured, bootstrap succeeds immediately
with no network call and no state change.  In cookie mode, when the
handling of the unauthenticated GET returns an error, bootstrap fails with
that error (even when credentials were extracted along the way); when the
GET is handled successfully, bootstrap fails with the missing-client-id
error if no ID was discovered, fails with the missing-csrf-token error if
CSRF is enabled and no token was discovered, and succeeds exactly when the
ID is present and (CSRF is disabled or the token is present). -/
theorem bootstrap_postconditions (c : HTTPClient) (boots : Nat)
    (trace : List (Option Response)) :
    (c.apikey ≠ "" →
      getCidAndCsrf c boots trace = GoResult.ok (Except.ok (), c, boots, trace)) ∧
    (c.apikey = "" →
      ∀ breq, bootstrapRequest c.endpoint = Except.ok breq →
        (∀ e c2 b2 t2,
          handleRequest c (boots + 1) trace breq =
            GoResult.ok (Except.error e, c2, b2, t2) →
          getCidAndCsrf c boots trace =
            GoResult.ok (Except.error e, c2, b2, t2)) ∧
        (∀ r c2 b2 t2,
          handleRequest c (boots + 1) trace breq =
            GoResult.ok (Except.ok r, c2, b2, t2) →
          getCidAndCsrf c boots trace =
            GoResult.ok
              ((if c2.id = "" then Except.error HErr.failedDeviceID
                else if ¬ c2.conf.csrfDisable ∧ c2.csrf = "" then
                  Except.error HErr.failedCSRFToken
                else Except.ok ()), c2, b2, t2))) := by
  constructor
  · intro hkey
    rw [getCidAndCsrf, if_pos hkey]
  · intro hkey breq hb
    constructor
    · intro e c2 b2 t2 hh
      rw [getCidAndCsrf, if_neg (fun hc => hc hkey), hb]
      simp [hh]
    · intro r c2 b2 t2 hh
      rw [getCidAndCsrf, if_neg (fun hc => hc hkey), hb]
      by_cases h1 : c2.id = ""
      · simp [hh, h1]
      · simp [hh, h1]
        split <;> simp_all

/-- Witness for `bootstrap_postconditions`: the API-key-mode client's
bootstrap is an immediate success with no network call, and on a successful
GET delivering full credentials the cookie-mode bootstrap succeeds. -/
theorem bootstrap_postconditions_w :
    getCidAndCsrf clientApi 0 [] = GoResult.ok (Except.ok (), clientApi, 0, []) :=
  (bootstrap_postconditions clientApi 0 []).1 (by decide)

/-- C9: after every response, the stored client ID is overwritten exactly
when the configured client-ID header is present (non-empty) and differs from
the stored value (the hypothesis `hc1` spells out that post-header state),
and the stored CSRF token is overwritten exactly when a cookie named
`"CSRF-Token-"` plus the first five characters of the current (post-header)
client ID is found, the scan being skipped entirely when that ID is empty.
The hypothesis `hsafe` restricts to the panic-free states: an ID that is
empty or at least five characters long. -/
theorem credentialExtraction (c c1 : HTTPClient) (r : Response) (cid : String)
    (hcid : cid = headerGet r.headers c.conf.headerClientKeyName)
    (hc1 : c1 = if cid ≠ "" ∧ c.id ≠ cid then { c with id := cid } else c)
    (hsafe : c1.id = "" ∨ 5 ≤ c1.id.data.length) :
    extractCreds c r =
      GoResult.ok { c1 with csrf :=
        (if c1.id = "" then c1.csrf
         else
           match findCookie r.cookies ("CSRF-Token-" ++ take5 c1.id) with
           | some v => v
           | none => c1.csrf) } := by
  have hbody : extractCreds c r = scanCookies c1 r.cookies := by
    simp only [extractCreds]
    rw [← hcid, ← hc1]
  cases hsafe with
  | inl h0 =>
    rw [hbody, scanCookies_empty_id c1 _ h0, if_pos h0]
  | inr h5 =>
    have hne : ¬ c1.id = "" := by
      intro h0
      rw [h0] at h5
      simp at h5
    rw [hbody, scanCookies_found c1 _ h5, if_neg hne]

/-- The response of the credential-extraction example: client-ID header
`abc123` and cookie `CSRF-Token-abc12 = tok1`. -/
def respC9 : Response :=
  { statusCode := 200, status := "200 OK", headers := [("X-Client", "abc123")],
    cookies := [("CSRF-Token-abc12", "tok1")], body := "", consumed := false }

/-- The session state after the credential-extraction example. -/
def clientC9 : HTTPClient :=
  { clientCookie with id := "abc123", csrf := "tok1" }

/-- Witness for `credentialExtraction`: the spec's concrete example — header
`abc123` with cookie `CSRF-Token-abc12 = tok1` leaves the session with
`id = "abc123"` and `csrf = "tok1"`. -/
theorem credentialExtraction_w :
    extractCreds clientCookie respC9 = GoResult.ok clientC9 := by
  have h := credentialExtraction clientCookie
    ({ clientCookie with id := "abc123" }) respC9 "abc123"
    (by decide) (by decide) (by decide)
  rw [h]
  decide

/-- The frame property of `requestCore` (httpclient.go lines 269-292): the
caller's buffer is written only on a final 200 (and then with the full
response body); a request-construction error, a transport error or any
non-200 outcome leaves it unchanged. -/
theorem requestCore_frame (c : HTTPClient) (boots : Nat)
    (trace : List (Option Response)) (method url : String)
    (rbody : Option String) (buf : String) (out : Except HErr Response)
    (data2 : Option String) (c2 : HTTPClient) (b2 : Nat)
    (t2 : List (Option Response))
    (h : requestCore c boots trace method url rbody (some buf) =
      GoResult.ok (out, data2, c2, b2, t2)) :
    ((∃ e, out = Except.error e) → data2 = some buf) ∧
    (∀ res, out = Except.ok res →
      res.statusCode = 200 ∧ data2 = some (ResponseToBArray res).1) := by
  rw [requestCore] at h
  cases hnr : newRequest method (formatURL c.endpoint c.conf.urlPfx url) rbody with
  | error e =>
    rw [hnr] at h
    simp at h
    obtain ⟨h1, h2, h3, h4, h5⟩ := h
    constructor
    · intro _
      exact h2.symm
    · intro res hres
      rw [← h1] at hres
      exact Except.noConfusion hres
  | ok request =>
    rw [hnr] at h
    cases hhr : handleRequest c boots trace request with
    | panic => simp [hhr] at h
    | ok quad =>
      obtain ⟨outc, c3, b3, t3⟩ := quad
      cases outc with
      | error e =>
        simp [hhr] at h
        obtain ⟨h1, h2, h3, h4, h5⟩ := h
        constructor
        · intro _
          exact h2.symm
        · intro res hres
          rw [← h1] at hres
          exact Except.noConfusion hres
      | ok res =>
        by_cases h200 : res.statusCode = 200
        · simp [hhr, h200] at h
          obtain ⟨h1, h2, h3, h4, h5⟩ := h
          constructor
          · intro ⟨e, he⟩
            rw [← h1] at he
            exact Except.noConfusion he
          · intro res2 hres
            rw [← h1] at hres
            cases hres
            exact ⟨h200, h2.symm⟩
        · simp [hhr, h200] at h
          obtain ⟨h1, h2, h3, h4, h5⟩ := h
          constructor
          · intro _
            exact h2.symm
          · intro res2 hres
            rw [← h1] at hres
            exact Except.noConfusion hres

/-- C10: through the full low-level pipeline, a non-null data buffer is
written (with the full response body) only when the final status is exactly
200: on a request-construction error, a transport error or any non-200
status the caller's buffer comes back unchanged. -/
theorem buffer_frame_200_only (c : HTTPClient) (boots : Nat)
    (trace : List (Option Response)) (method url : String)
    (rbody : Option String) (buf : String) (out : Except HErr Response)
    (data2 : Option String) (c2 : HTTPClient) (b2 : Nat)
    (t2 : List (Option Response))
    (h : lowHTTPRequest c boots trace method url rbody (some buf) =
      GoResult.ok (out, data2, c2, b2, t2)) :
    ((∃ e, out = Except.error e) → data2 = some buf) ∧
    (∀ res, out = Except.ok res →
      res.statusCode = 200 ∧ data2 = some (ResponseToBArray res).1) := by
  rw [lowHTTPRequest] at h
  cases hli : lazyInitStep c boots trace with
  | panic =>
    rw [hli] at h
    simp at h
  | ok triple =>
    obtain ⟨c1, b1, t1⟩ := triple
    rw [hli] at h
    simp only [] at h
    exact requestCore_frame c1 b1 t1 method url rbody buf out data2 c2 b2 t2 h

/-- Witness for `buffer_frame_200_only`: a transport error (empty trace) on
an initialized client leaves the buffer `"old"` unchanged. -/
theorem buffer_frame_200_only_w :
    ((∃ e, (Except.error HErr.transport : Except HErr Response) =
        Except.error e) → (some "old" : Option String) = some "old") ∧
    (∀ res : Response,
      (Except.error HErr.transport : Except HErr Response) = Except.ok res →
      res.statusCode = 200 ∧
        (some "old" : Option String) = some (ResponseToBArray res).1) :=
  buffer_frame_200_only clientCookie 0 [] "GET" "x" none "old"
    (Except.error HErr.transport) (some "old") clientCookie 0 [] (by rfl)

end XdsHttp
